import Mathlib

/-!
Shallow embedding of the Abtech car-analytics pipeline (src/main2.py):
string-level field stripping and parsing, the listing locator dispatch,
per-node field extraction, the record normalizer `clean_car_data`, and the
button-driven fetch-and-analyze cycle with its session state and messages.
-/

namespace Abtech

/-! ### String helpers (Python `in`, `strip`, `lower`, numeric parsing) -/

/-- Is the first list an initial segment of the second?  (Char-list level.) -/
def listPre : List Char → List Char → Bool
  | [], _ => true
  | _ :: _, [] => false
  | a :: as, b :: bs => a == b && listPre as bs

/-- Does `needle` occur as a contiguous sublist of the second argument? -/
def subList (needle : List Char) : List Char → Bool
  | [] => needle.isEmpty
  | c :: t => listPre needle (c :: t) || subList needle t

/-- Python `needle in hay` on strings. -/
def pyIn (needle hay : String) : Bool := subList needle.data hay.data

/-- Python `str.strip()`: drop whitespace from both ends. -/
def pyStrip (s : String) : String :=
  String.mk (((s.data.dropWhile Char.isWhitespace).reverse.dropWhile Char.isWhitespace).reverse)

/-- Python `str.lower()` (ASCII case folding, as used on class attributes). -/
def pyLower (s : String) : String := String.mk (s.data.map Char.toLower)

/-- Characters kept by the price-stripping comprehension: digits and the dot. -/
def isNumChar (c : Char) : Bool := c.isDigit || c == '.'

/-- Value of a (possibly empty) digit string, most significant first. -/
def digitsVal (cs : List Char) : ℕ := cs.foldl (fun a c => 10 * a + (c.toNat - 48)) 0

/-- The digits before the (first) dot of a numeric string. -/
def intPart (s : String) : List Char := s.data.takeWhile (fun c => c != '.')

/-- The digits after the dot of a numeric string (empty when dot-free). -/
def fracPart (s : String) : List Char := (s.data.dropWhile (fun c => c != '.')).drop 1

/-- Python `float` acceptance on a digits-and-dot string: at least one
digit, only digits and dots, at most one dot. -/
def okNum (s : String) : Bool :=
  s.data.any Char.isDigit && s.data.all isNumChar &&
    decide (s.data.countP (fun c => c == '.') ≤ 1)

/-- Numeric parse of a digits-and-dot string, as Python `float` accepts it.
Also models `pd.to_numeric(errors=coerce)` on such strings
(`none` = NaN / ValueError). -/
def parseRat (s : String) : Option ℚ :=
  if okNum s then
    some ((digitsVal (intPart s) : ℚ) +
      (digitsVal (fracPart s) : ℚ) / (10 : ℚ) ^ (fracPart s).length)
  else none

/-! ### Data model: raw cells, records, and tables -/

/-- A raw table cell before `pd.to_numeric`: a string, a number, or NaN. -/
inductive RawVal where
  | str (s : String)
  | num (q : ℚ)
  | missing
deriving DecidableEq

/-- One row of the raw table handed to `clean_car_data`. -/
structure RawRecord where
  name : String
  price : RawVal
  location : String
  year : RawVal
deriving DecidableEq

/-- One row after `pd.to_numeric(errors=coerce)` on price and year
(`none` = NaN). -/
structure CoRecord where
  name : String
  price : Option ℚ
  location : String
  year : Option ℚ
deriving DecidableEq

/-- One row of the clean table: after filtering, fillna and `astype(int)`. -/
structure CleanRecord where
  name : String
  price : ℚ
  location : String
  year : ℤ
deriving DecidableEq

/-- `pd.to_numeric(x, errors=coerce)` on one cell. -/
def toNumeric : RawVal → Option ℚ
  | .str s => parseRat s
  | .num q => some q
  | .missing => none

/-- Pandas `Series.median()` over the non-missing values already extracted:
sort, take the middle element (odd length) or the mean of the two middle
elements (even length); `none` on the empty list (NaN median). -/
def medianQ (l : List ℚ) : Option ℚ :=
  if (List.insertionSort (· ≤ ·) l).length = 0 then none
  else if (List.insertionSort (· ≤ ·) l).length % 2 = 1 then
    some ((List.insertionSort (· ≤ ·) l).getD ((List.insertionSort (· ≤ ·) l).length / 2) 0)
  else
    some (((List.insertionSort (· ≤ ·) l).getD ((List.insertionSort (· ≤ ·) l).length / 2 - 1) 0 +
      (List.insertionSort (· ≤ ·) l).getD ((List.insertionSort (· ≤ ·) l).length / 2) 0) / 2)

/-- Numpy `astype(int)` on a finite float: truncation toward zero. -/
def truncRat (q : ℚ) : ℤ := if 0 ≤ q then ⌊q⌋ else ⌈q⌉

/-- Lines 103-104: coerce the price and year columns to numeric. -/
def coerceRecord (r : RawRecord) : CoRecord :=
  ⟨r.name, toNumeric r.price, r.location, toNumeric r.year⟩

/-- Line 107: the boolean mask `df[df.price > 0]`; NaN compares false. -/
def pricePos (r : CoRecord) : Bool :=
  match r.price with
  | some p => decide (0 < p)
  | none => false

/-- The batch surviving coercion and price filtering (lines 103-107). -/
def filteredOf (df : List RawRecord) : List CoRecord :=
  (df.map coerceRecord).filter pricePos

/-- Lines 112: `fillna(median)` then `astype(int)` on one surviving row.
The price is known non-missing here (it passed the positivity filter). -/
def finalize (m : ℚ) (r : CoRecord) : CleanRecord :=
  ⟨r.name, r.price.getD 0, r.location, truncRat (r.year.getD m)⟩

/-- Lines 98-114, `clean_car_data`: empty input returned as is; otherwise
coerce, filter on price, and when any rows survive fill missing years with
the median of the non-missing years of the surviving batch and cast to int.
`none` models the uncaught `astype(int)` ValueError raised when every
surviving year is NaN (the NaN median cannot be cast); the trailing
`dropna()` is the identity on the rows produced here. -/
def clean_car_data (df : List RawRecord) : Option (List CleanRecord) :=
  if df.isEmpty then some []
  else if (filteredOf df).isEmpty then some []
  else
    match medianQ ((filteredOf df).filterMap (fun r => r.year)) with
    | none => none
    | some m => some ((filteredOf df).map (finalize m))

/-! ### Document model, listing locator and field extractor -/

/-- A child element of a listing node: tag, class attribute, text. -/
structure Elem where
  tag : String
  cls : Option String
  text : String
deriving DecidableEq

/-- A candidate listing node of the parsed document. -/
structure Node where
  tag : String
  cls : Option String
  children : List Elem
deriving DecidableEq

/-- A BeautifulSoup `class_=lambda x: x and p(x)` test: the attribute must be
present, non-empty (truthy) and satisfy the predicate. -/
def clsSatisfies (cls : Option String) (p : String → Bool) : Bool :=
  match cls with
  | some s => !(s == "") && p s
  | none => false

/-- `soup.find_all(div, class_=c)`: the divs carrying exactly class `c`. -/
def findAllDiv (doc : List Node) (c : String) : List Node :=
  doc.filter (fun n => n.tag == "div" && n.cls == some c)

/-- The generic fallback predicate: class contains "listing", case-insensitive. -/
def genericCls (s : String) : Bool := pyIn "listing" (pyLower s)

/-- Lines 51-58: locator dispatch on the url, first match wins, generic
fallback selecting divs whose class contains "listing" case-insensitively. -/
def selectListings (url : String) (doc : List Node) : List Node :=
  if pyIn "jiji.ng" url then findAllDiv doc "b-list-advert__item"
  else if pyIn "cheki" url then findAllDiv doc "listing-unit"
  else if pyIn "cars45" url then findAllDiv doc "vehicle-card"
  else doc.filter (fun n => n.tag == "div" && clsSatisfies n.cls genericCls)

/-- `listing.find(t)`: first child with the given tag. -/
def findTag (n : Node) (t : String) : Option Elem :=
  n.children.find? (fun e => e.tag == t)

/-- `listing.find(class_=c)`: first child with exactly class `c`. -/
def findCls (n : Node) (c : String) : Option Elem :=
  n.children.find? (fun e => e.cls == some c)

/-- `listing.find(class_=lambda x: x and p(x))`. -/
def findClsPred (n : Node) (p : String → Bool) : Option Elem :=
  n.children.find? (fun e => clsSatisfies e.cls p)

/-- `listing.find(span, class_=lambda x: x and p(x))`. -/
def findSpanClsPred (n : Node) (p : String → Bool) : Option Elem :=
  n.children.find? (fun e => e.tag == "span" && clsSatisfies e.cls p)

/-- Lines 63: the name locator chain: h2, else h3, else class containing
"name" case-insensitively. -/
def nameElem (n : Node) : Option Elem :=
  (findTag n "h2").orElse fun _ =>
    (findTag n "h3").orElse fun _ =>
      findClsPred n (fun s => pyIn "name" (pyLower s))

/-- Line 64: stripped text of the located name element, default "Unknown". -/
def extractName (n : Node) : String :=
  match nameElem n with
  | some e => pyStrip e.text
  | none => "Unknown"

/-- Lines 67-69: the price locator chain: exact class "price", else class
containing "price", else a span whose class contains "amount". -/
def priceElem (n : Node) : Option Elem :=
  (findCls n "price").orElse fun _ =>
    (findClsPred n (fun s => pyIn "price" (pyLower s))).orElse fun _ =>
      findSpanClsPred n (fun s => pyIn "amount" (pyLower s))

/-- Line 70: stripped text of the located price element, default "0". -/
def rawPriceStr (n : Node) : String :=
  match priceElem n with
  | some e => pyStrip e.text
  | none => "0"

/-- Line 71: keep only digits and dots of the price text. -/
def strippedPrice (n : Node) : String :=
  String.mk ((rawPriceStr n).data.filter isNumChar)

/-- Line 88: `float(price) if price else 0`.  `none` models the ValueError
raised by `float` on a non-empty but unparseable string such as "1.2.3". -/
def priceVal (n : Node) : Option ℚ :=
  if (strippedPrice n).data.isEmpty then some 0
  else parseRat (strippedPrice n)

/-- Lines 74-77: the location locator chain with default "Unknown". -/
def locationElem (n : Node) : Option Elem :=
  (findCls n "location").orElse fun _ =>
    (findClsPred n (fun s => pyIn "location" (pyLower s))).orElse fun _ =>
      findSpanClsPred n (fun s => pyIn "area" (pyLower s))

/-- Line 77: stripped text of the located location element, default "Unknown". -/
def extractLocation (n : Node) : String :=
  match locationElem n with
  | some e => pyStrip e.text
  | none => "Unknown"

/-- Lines 80-82: the year locator chain: exact class "year", else class
containing "year", else a span whose class contains "yr". -/
def yearElem (n : Node) : Option Elem :=
  (findCls n "year").orElse fun _ =>
    (findClsPred n (fun s => pyIn "year" (pyLower s))).orElse fun _ =>
      findSpanClsPred n (fun s => pyIn "yr" (pyLower s))

/-- Lines 83-84: stripped year text (default "0"), digits only kept. -/
def strippedYear (n : Node) : String :=
  String.mk ((match yearElem n with
    | some e => pyStrip e.text
    | none => "0").data.filter Char.isDigit)

/-- Line 90: `int(year) if year and year.isdigit() else 0`; the stripped
year is all digits, so only emptiness can fail the guard. -/
def yearVal (n : Node) : ℕ :=
  if (strippedYear n).data.isEmpty then 0 else digitsVal (strippedYear n).data

/-- One record appended by the extraction loop (lines 86-91). -/
structure FRecord where
  name : String
  price : ℚ
  location : String
  year : ℕ
deriving DecidableEq

/-- Lines 61-94, one loop iteration: build the record, or `none` when the
`float` call raises and the `except` branch skips this listing. -/
def extractRecord (n : Node) : Option FRecord :=
  match priceVal n with
  | some p => some ⟨extractName n, p, extractLocation n, yearVal n⟩
  | none => none

/-- The locate-and-extract pass: every located node tried in order, failing
nodes skipped (`continue`), the rest collected in order. -/
def fetch_extract (url : String) (doc : List Node) : List FRecord :=
  (selectListings url doc).filterMap extractRecord

/-! ### Fetch adapter outcome, messages, and the fetch-and-analyze cycle -/

/-- A user-visible Streamlit message. -/
inductive UIMsg where
  | errorMsg (s : String)
  | warningMsg (s : String)
deriving DecidableEq

/-- Outcome of the black-box HTTP fetch: a parsed document, a transport
failure (`requests.exceptions.RequestException`), or a non-HTML response. -/
inductive FetchOutcome where
  | success (doc : List Node)
  | httpFailure (emsg : String)
  | nonHTML
deriving DecidableEq

/-- Lines 25-96, `fetch_car_data`: messages emitted and records returned.
Failures return an empty table after an error message; a successful fetch
runs the locate-and-extract pass, warning once per skipped listing. -/
def fetch_car_data (url : String) (res : FetchOutcome) : List UIMsg × List FRecord :=
  match res with
  | .httpFailure e => ([.errorMsg ("Failed to fetch data: " ++ e)], [])
  | .nonHTML => ([.errorMsg "Received non-HTML response"], [])
  | .success doc =>
      ((selectListings url doc).filterMap (fun n =>
        match extractRecord n with
        | none => some (UIMsg.warningMsg "Skipped a listing due to error")
        | some _ => none),
       fetch_extract url doc)

/-- A fetched record as the raw table row handed to `clean_car_data`:
both numeric fields are present numbers, never missing. -/
def toRawRecord (r : FRecord) : RawRecord :=
  ⟨r.name, .num r.price, r.location, .num (r.year : ℚ)⟩

/-- Lines 129-137, the button handler: fetch; on an empty raw table warn and
leave the session state alone; otherwise clean and store the clean table.
A cleaning exception (`clean_car_data` = none) aborts before the store. -/
def runCycle (state : List CleanRecord) (url : String) (res : FetchOutcome) :
    List CleanRecord × List UIMsg :=
  if (fetch_car_data url res).2.isEmpty then
    (state, (fetch_car_data url res).1 ++
      [.warningMsg "No data fetched. The website structure may have changed or the site may be blocking requests."])
  else
    match clean_car_data ((fetch_car_data url res).2.map toRawRecord) with
    | some t => (t, (fetch_car_data url res).1)
    | none => (state, (fetch_car_data url res).1)

/-- Does the message list carry an error (as opposed to warnings only)? -/
def hasError (msgs : List UIMsg) : Bool :=
  msgs.any fun m =>
    match m with
    | .errorMsg _ => true
    | .warningMsg _ => false

/-- Lines 183-189: the CSV download button is offered exactly when the
stored clean table is non-empty. -/
def exportAvailable (state : List CleanRecord) : Bool := !state.isEmpty

/-! ### Concrete scenario data -/

/-- The Jiji.ng Cars source URL from the site table (line 120). -/
def urlJiji : String := "https://www.jiji.ng/cars"

/-- A price element whose text reads "100". -/
def priceElem100 : Elem := ⟨"span", some "price", "100"⟩

/-- A Jiji listing node with year text "2020". -/
def node2020 : Node :=
  ⟨"div", some "b-list-advert__item", [priceElem100, ⟨"span", some "year", "2020"⟩]⟩

/-- A Jiji listing node with no year element at all. -/
def nodeNoYear : Node := ⟨"div", some "b-list-advert__item", [priceElem100]⟩

/-- A Jiji listing node with year text "2018". -/
def node2018 : Node :=
  ⟨"div", some "b-list-advert__item", [priceElem100, ⟨"span", some "year", "2018"⟩]⟩

/-- The three-listing document of the year-imputation scenario. -/
def c4doc : List Node := [node2020, nodeNoYear, node2018]

/-- A generic listing node whose price text strips to the unparseable
"1.2.3". -/
def badPriceNode : Node := ⟨"div", some "listing", [⟨"span", some "price", "1.2.3"⟩]⟩

/-- A generic listing node with no extractable field at all. -/
def emptyListingNode : Node := ⟨"div", some "listing", []⟩

/-- A lone Jiji listing-item div. -/
def jijiItemNode : Node := ⟨"div", some "b-list-advert__item", []⟩

/-! ### Helper lemmas about the normalizer -/

theorem medianQ_isSome (l : List ℚ) (h : l ≠ []) : ∃ m, medianQ l = some m := by
  have hlen : (List.insertionSort (· ≤ ·) l).length = l.length :=
    (List.perm_insertionSort (· ≤ ·) l).length_eq
  have h0 : ¬ (List.insertionSort (· ≤ ·) l).length = 0 := by
    rw [hlen]
    exact (List.length_pos.mpr h).ne'
  by_cases hodd : (List.insertionSort (· ≤ ·) l).length % 2 = 1
  · exact ⟨_, by unfold medianQ; rw [if_neg h0, if_pos hodd]⟩
  · exact ⟨_, by unfold medianQ; rw [if_neg h0, if_neg hodd]⟩

theorem clean_eq_of_filtered_empty (df : List RawRecord) (h : filteredOf df = []) :
    clean_car_data df = some [] := by
  unfold clean_car_data
  by_cases hdf : df.isEmpty
  · rw [if_pos hdf]
  · rw [if_neg hdf, if_pos (by rw [h]; rfl)]

theorem clean_eq_of_median (df : List RawRecord) (hdf : df ≠ [])
    (hfil : filteredOf df ≠ []) (m : ℚ)
    (hm : medianQ ((filteredOf df).filterMap (fun r => r.year)) = some m) :
    clean_car_data df = some ((filteredOf df).map (finalize m)) := by
  unfold clean_car_data
  rw [if_neg (by simp [hdf]), if_neg (by simp [hfil]), hm]

theorem clean_eq_of_median_none (df : List RawRecord) (hdf : df ≠ [])
    (hfil : filteredOf df ≠ [])
    (hm : medianQ ((filteredOf df).filterMap (fun r => r.year)) = none) :
    clean_car_data df = none := by
  unfold clean_car_data
  rw [if_neg (by simp [hdf]), if_neg (by simp [hfil]), hm]

theorem truncRat_intCast (z : ℤ) : truncRat (z : ℚ) = z := by
  unfold truncRat
  split_ifs
  · exact Int.floor_intCast z
  · exact Int.ceil_intCast z

/-! ### Claims about the record normalizer -/

/-- C1: the normalizer coerces price and year first, drops missing or
non-positive prices next, and only then imputes: whenever the price-filtered
batch still has a parseable and an unparseable year, the table is obtained
by filling every missing year of that filtered batch with the median of its
non-missing years, coerced to integer. -/
theorem c1_impute_median_of_filtered (df : List RawRecord)
    (hp : ∃ r ∈ filteredOf df, (CoRecord.year r).isSome)
    (hu : ∃ r ∈ filteredOf df, CoRecord.year r = none) :
    ∃ m, medianQ ((filteredOf df).filterMap (fun r => r.year)) = some m ∧
      clean_car_data df = some ((filteredOf df).map (finalize m)) ∧
      ∀ r ∈ filteredOf df, r.year = none → (finalize m r).year = truncRat m := by
  obtain ⟨r0, hr0, hy0⟩ := hp
  have hfil : filteredOf df ≠ [] := by
    intro hh
    rw [hh] at hr0
    exact absurd hr0 (List.not_mem_nil r0)
  have hdf : df ≠ [] := by
    intro hh
    subst hh
    exact hfil rfl
  have hyears : (filteredOf df).filterMap (fun r => r.year) ≠ [] := by
    intro hh
    rw [List.filterMap_eq_nil_iff] at hh
    rw [hh r0 hr0] at hy0
    simp at hy0
  obtain ⟨m, hm⟩ := medianQ_isSome _ hyears
  refine ⟨m, hm, clean_eq_of_median df hdf hfil m hm, ?_⟩
  intro r hr hry
  simp [finalize, hry]

/-- C1 witness: a concrete two-row batch, one parseable year "2020" and one
missing year, both with positive price. -/
theorem c1_witness :
    ∃ m, medianQ ((filteredOf
        [⟨"a", RawVal.num 5, "x", RawVal.str "2020"⟩,
         ⟨"b", RawVal.num 7, "y", RawVal.missing⟩]).filterMap (fun r => r.year)) = some m ∧
      clean_car_data
        [⟨"a", RawVal.num 5, "x", RawVal.str "2020"⟩,
         ⟨"b", RawVal.num 7, "y", RawVal.missing⟩] =
        some ((filteredOf
          [⟨"a", RawVal.num 5, "x", RawVal.str "2020"⟩,
           ⟨"b", RawVal.num 7, "y", RawVal.missing⟩]).map (finalize m)) ∧
      ∀ r ∈ filteredOf
          [⟨"a", RawVal.num 5, "x", RawVal.str "2020"⟩,
           ⟨"b", RawVal.num 7, "y", RawVal.missing⟩],
        r.year = none → (finalize m r).year = truncRat m :=
  c1_impute_median_of_filtered _ (by decide) (by decide)

/-- C2: every record of the clean table has strictly positive price, and
that price is the numeric coercion of an input record's price (records are
dropped, never repaired). -/
theorem c2_output_price_positive (df : List RawRecord) (out : List CleanRecord)
    (h : clean_car_data df = some out) :
    ∀ r ∈ out, 0 < r.price ∧ ∃ raw ∈ df, toNumeric raw.price = some r.price := by
  intro r hr
  by_cases hdf : df = []
  · subst hdf
    injection h with h'
    subst h'
    exact absurd hr (List.not_mem_nil r)
  · by_cases hfe : filteredOf df = []
    · rw [clean_eq_of_filtered_empty df hfe] at h
      injection h with h'
      subst h'
      exact absurd hr (List.not_mem_nil r)
    · cases hmq : medianQ ((filteredOf df).filterMap (fun r => r.year)) with
      | none =>
          rw [clean_eq_of_median_none df hdf hfe hmq] at h
          exact absurd h (by simp)
      | some m =>
          rw [clean_eq_of_median df hdf hfe m hmq] at h
          injection h with h'
          subst h'
          obtain ⟨c, hc, rfl⟩ := List.mem_map.mp hr
          have hcf := List.mem_filter.mp hc
          obtain ⟨raw, hraw, rfl⟩ := List.mem_map.mp hcf.1
          have hpp := hcf.2
          cases hcp : toNumeric raw.price with
          | none => simp [pricePos, coerceRecord, hcp] at hpp
          | some p =>
              have hpos : 0 < p := by
                simpa [pricePos, coerceRecord, hcp] using hpp
              refine ⟨?_, raw, hraw, ?_⟩
              · simpa [finalize, coerceRecord, hcp] using hpos
              · simp [finalize, coerceRecord, hcp]

/-- C2 witness: a concrete batch with a positive, a non-positive and an
unparseable price. -/
theorem c2_witness :
    0 < (CleanRecord.mk "a" 5 "x" 2018).price ∧ ∃ raw ∈
      ([⟨"a", RawVal.num 5, "x", RawVal.num 2018⟩,
        ⟨"b", RawVal.num 0, "y", RawVal.num 2010⟩,
        ⟨"c", RawVal.missing, "z", RawVal.num 2012⟩] : List RawRecord),
      toNumeric raw.price = some (CleanRecord.mk "a" 5 "x" 2018).price :=
  c2_output_price_positive
    [⟨"a", RawVal.num 5, "x", RawVal.num 2018⟩,
     ⟨"b", RawVal.num 0, "y", RawVal.num 2010⟩,
     ⟨"c", RawVal.missing, "z", RawVal.num 2012⟩]
    [CleanRecord.mk "a" 5 "x" 2018] (by decide) (CleanRecord.mk "a" 5 "x" 2018) (by decide)

/-- C5: the normalizer is the identity on an already-clean table: every
price a positive number, every year an integer number, no missing cell. -/
theorem c5_idempotent (df : List RawRecord)
    (h : ∀ r ∈ df, (∃ p : ℚ, r.price = RawVal.num p ∧ 0 < p) ∧
      (∃ z : ℤ, r.year = RawVal.num (z : ℚ))) :
    ∃ out, clean_car_data df = some out ∧
      List.Forall₂ (fun (r : RawRecord) (o : CleanRecord) =>
        o.name = r.name ∧ RawVal.num o.price = r.price ∧
        o.location = r.location ∧ RawVal.num ((o.year : ℤ) : ℚ) = r.year) df out := by
  by_cases hdf : df = []
  · subst hdf
    exact ⟨[], rfl, List.Forall₂.nil⟩
  · have hfil : filteredOf df = df.map coerceRecord := by
      unfold filteredOf
      apply List.filter_eq_self.mpr
      intro c hc
      obtain ⟨raw, hraw, rfl⟩ := List.mem_map.mp hc
      obtain ⟨⟨p, hp, hppos⟩, _⟩ := h raw hraw
      simp [pricePos, coerceRecord, toNumeric, hp, hppos]
    have hfilne : filteredOf df ≠ [] := by
      rw [hfil]
      simp [hdf]
    have hyne : (filteredOf df).filterMap (fun r => r.year) ≠ [] := by
      rw [hfil]
      intro hh
      rw [List.filterMap_eq_nil_iff] at hh
      obtain ⟨r0, hr0⟩ := List.exists_mem_of_ne_nil df hdf
      obtain ⟨_, ⟨z, hz⟩⟩ := h r0 hr0
      have hc0 := hh (coerceRecord r0) (List.mem_map_of_mem coerceRecord hr0)
      simp [coerceRecord, toNumeric, hz] at hc0
    obtain ⟨m, hm⟩ := medianQ_isSome _ hyne
    refine ⟨_, clean_eq_of_median df hdf hfilne m hm, ?_⟩
    rw [hfil, List.map_map]
    rw [List.forall₂_map_right_iff, List.forall₂_same]
    intro r hr
    obtain ⟨⟨p, hp, hppos⟩, ⟨z, hz⟩⟩ := h r hr
    refine ⟨rfl, ?_, rfl, ?_⟩
    · simp [finalize, coerceRecord, toNumeric, hp]
    · simp [finalize, coerceRecord, toNumeric, hz, truncRat_intCast]

/-- C5 witness: a concrete one-row table that is already clean. -/
theorem c5_witness :
    ∃ out, clean_car_data [⟨"car", RawVal.num 5, "lagos", RawVal.num 2018⟩] = some out ∧
      List.Forall₂ (fun (r : RawRecord) (o : CleanRecord) =>
        o.name = r.name ∧ RawVal.num o.price = r.price ∧
        o.location = r.location ∧ RawVal.num ((o.year : ℤ) : ℚ) = r.year)
        [⟨"car", RawVal.num 5, "lagos", RawVal.num 2018⟩] out :=
  c5_idempotent _ (by
    intro r hr
    rw [List.mem_singleton] at hr
    subst hr
    refine ⟨⟨5, rfl, by norm_num⟩, ⟨2018, ?_⟩⟩
    norm_num)

/-- C8: a transport-level fetch failure leaves the stored clean table
untouched, emits a user-visible error, and the stored table is exactly as
exportable as before. -/
theorem c8_fetch_failure_frame (state : List CleanRecord) (url e : String) :
    (runCycle state url (.httpFailure e)).1 = state ∧
    hasError (runCycle state url (.httpFailure e)).2 = true ∧
    exportAvailable (runCycle state url (.httpFailure e)).1 = exportAvailable state := by
  refine ⟨rfl, rfl, rfl⟩

/-- C9: when no record survives the price filter, the normalizer returns
the empty table, even though the median of the surviving years is
undefined (and is never computed). -/
theorem c9_empty_filtered (df : List RawRecord) (h : filteredOf df = []) :
    clean_car_data df = some [] ∧
      medianQ ((filteredOf df).filterMap (fun r => r.year)) = none := by
  refine ⟨clean_eq_of_filtered_empty df h, ?_⟩
  rw [h]
  rfl

/-- C9 witness: a concrete batch whose two records have price 0 and a
missing price. -/
theorem c9_witness :
    clean_car_data
      [⟨"a", RawVal.num 0, "x", RawVal.num 2018⟩,
       ⟨"b", RawVal.missing, "y", RawVal.missing⟩] = some [] ∧
    medianQ ((filteredOf
      [⟨"a", RawVal.num 0, "x", RawVal.num 2018⟩,
       ⟨"b", RawVal.missing, "y", RawVal.missing⟩]).filterMap (fun r => r.year)) = none :=
  c9_empty_filtered _ (by decide)

/-! ### Helper lemmas about parsing and extraction -/

theorem parseRat_dotfree (s : String) (h : okNum s = true) (hf : fracPart s = []) :
    parseRat s = some (digitsVal (intPart s) : ℚ) := by
  rw [parseRat, if_pos h, hf]
  have h0 : digitsVal ([] : List Char) = 0 := rfl
  rw [h0]
  norm_num

theorem parseRat_nonneg (s : String) (q : ℚ) (h : parseRat s = some q) : 0 ≤ q := by
  rw [parseRat] at h
  by_cases hc : okNum s = true
  · rw [if_pos hc] at h
    injection h with h'
    subst h'
    positivity
  · rw [if_neg hc] at h
    exact absurd h (by simp)

theorem parseRat_zero : parseRat "0" = some 0 := by
  rw [parseRat_dotfree "0" (by decide) (by decide)]
  norm_num [show digitsVal (intPart "0") = 0 from rfl]

theorem parseRat_100 : parseRat "100" = some 100 := by
  rw [parseRat_dotfree "100" (by decide) (by decide)]
  norm_num [show digitsVal (intPart "100") = 100 from rfl]

theorem parseRat_123 : parseRat "1.2.3" = none := by
  rw [parseRat, if_neg (by decide)]

theorem priceVal_of_stripped (n : Node) (s : String) (hs : strippedPrice n = s)
    (hne : s.data.isEmpty = false) (v : ℚ) (hv : parseRat s = some v) :
    priceVal n = some v := by
  unfold priceVal
  rw [hs, if_neg (by simp [hne]), hv]

theorem priceVal_default (n : Node) (h : priceElem n = none) : priceVal n = some 0 := by
  have hs : strippedPrice n = "0" := by
    unfold strippedPrice rawPriceStr
    rw [h]
    decide
  unfold priceVal
  rw [hs, if_neg (by decide)]
  exact parseRat_zero

theorem extractRecord_eq (n : Node) (p : ℚ) (hp : priceVal n = some p) :
    extractRecord n = some ⟨extractName n, p, extractLocation n, yearVal n⟩ := by
  unfold extractRecord
  rw [hp]

theorem extractRecord_noneOf (n : Node) (hp : priceVal n = none) :
    extractRecord n = none := by
  unfold extractRecord
  rw [hp]

theorem extract_node2020 : extractRecord node2020 = some ⟨"Unknown", 100, "Unknown", 2020⟩ := by
  rw [extractRecord_eq node2020 100
    (priceVal_of_stripped node2020 "100" (by decide) (by decide) 100 parseRat_100)]
  decide

theorem extract_nodeNoYear : extractRecord nodeNoYear = some ⟨"Unknown", 100, "Unknown", 0⟩ := by
  rw [extractRecord_eq nodeNoYear 100
    (priceVal_of_stripped nodeNoYear "100" (by decide) (by decide) 100 parseRat_100)]
  decide

theorem extract_node2018 : extractRecord node2018 = some ⟨"Unknown", 100, "Unknown", 2018⟩ := by
  rw [extractRecord_eq node2018 100
    (priceVal_of_stripped node2018 "100" (by decide) (by decide) 100 parseRat_100)]
  decide

theorem badPrice_skipped : extractRecord badPriceNode = none := by
  apply extractRecord_noneOf
  unfold priceVal
  rw [show strippedPrice badPriceNode = "1.2.3" from by decide, if_neg (by decide)]
  exact parseRat_123

theorem emptyListing_rec :
    extractRecord emptyListingNode = some ⟨"Unknown", 0, "Unknown", 0⟩ := by
  rw [extractRecord_eq emptyListingNode 0 (priceVal_default emptyListingNode (by decide))]
  decide

theorem c4_fetch_eval : fetch_car_data urlJiji (.success c4doc) =
    ([], [⟨"Unknown", 100, "Unknown", 2020⟩, ⟨"Unknown", 100, "Unknown", 0⟩,
      ⟨"Unknown", 100, "Unknown", 2018⟩]) := by
  simp only [fetch_car_data, fetch_extract]
  rw [show selectListings urlJiji c4doc = [node2020, nodeNoYear, node2018] from by decide]
  simp only [List.filterMap_cons, List.filterMap_nil, extract_node2020, extract_nodeNoYear,
    extract_node2018]

theorem c4_cycle_eval : runCycle [] urlJiji (.success c4doc) =
    ([⟨"Unknown", 100, "Unknown", 2020⟩, ⟨"Unknown", 100, "Unknown", 0⟩,
      ⟨"Unknown", 100, "Unknown", 2018⟩], []) := by
  unfold runCycle
  rw [c4_fetch_eval]
  simp only [List.isEmpty_cons, Bool.false_eq_true, if_false]
  rw [show clean_car_data
      (([⟨"Unknown", 100, "Unknown", 2020⟩, ⟨"Unknown", 100, "Unknown", 0⟩,
        (⟨"Unknown", 100, "Unknown", 2018⟩ : FRecord)]).map toRawRecord) =
      some [⟨"Unknown", 100, "Unknown", 2020⟩, ⟨"Unknown", 100, "Unknown", 0⟩,
        ⟨"Unknown", 100, "Unknown", 2018⟩] from by decide]

/-! ### Claims about extraction, the locator, and the cycle -/

/-- C3 counterexample: a node whose price text strips to the malformed
"1.2.3" is not produced at all (the whole record is skipped), contradicting
per-field degradation; the following node is still extracted. -/
theorem c3_counterexample :
    extractRecord badPriceNode = none ∧
    fetch_extract "https://example.com" [badPriceNode, emptyListingNode] =
      [⟨"Unknown", 0, "Unknown", 0⟩] := by
  refine ⟨badPrice_skipped, ?_⟩
  unfold fetch_extract
  rw [show selectListings "https://example.com" [badPriceNode, emptyListingNode] =
    [badPriceNode, emptyListingNode] from by decide]
  simp only [List.filterMap_cons, List.filterMap_nil, badPrice_skipped, emptyListing_rec]

/-- C3 amended: a failure to locate a field's element degrades that field
to its default with the record still produced; but a price text that is
non-empty after stripping and unparseable makes the loop skip that whole
record; in either case the pass over the remaining nodes continues
unaffected. -/
theorem c3_amended_degradation :
    (∀ n : Node, nameElem n = none → priceElem n = none → locationElem n = none →
      yearElem n = none → extractRecord n = some ⟨"Unknown", 0, "Unknown", 0⟩) ∧
    (∀ n : Node, extractRecord n = none →
      (strippedPrice n).data.isEmpty = false ∧ parseRat (strippedPrice n) = none) ∧
    (∀ (pre post : List Node) (n : Node),
      (pre ++ n :: post).filterMap extractRecord =
        pre.filterMap extractRecord ++ (extractRecord n).toList ++
          post.filterMap extractRecord) := by
  refine ⟨?_, ?_, ?_⟩
  · intro n h1 h2 h3 h4
    have hn : extractName n = "Unknown" := by
      unfold extractName
      rw [h1]
    have hl : extractLocation n = "Unknown" := by
      unfold extractLocation
      rw [h3]
    have hy : yearVal n = 0 := by
      unfold yearVal strippedYear
      rw [h4]
      decide
    rw [extractRecord_eq n 0 (priceVal_default n h2), hn, hl, hy]
  · intro n h
    unfold extractRecord at h
    cases hp : priceVal n with
    | some p =>
        rw [hp] at h
        exact absurd h (by simp)
    | none =>
        unfold priceVal at hp
        by_cases he : (strippedPrice n).data.isEmpty
        · rw [if_pos he] at hp
          exact absurd hp (by simp)
        · rw [if_neg he] at hp
          exact ⟨Bool.eq_false_iff.mpr he, hp⟩
  · intro pre post n
    rw [List.filterMap_append, List.append_assoc]
    congr 1
    cases hfn : extractRecord n with
    | none => simp [List.filterMap_cons, hfn]
    | some a => simp [List.filterMap_cons, hfn]

/-- C3 witness: a node with no located field gives the all-default record. -/
theorem c3_witness :
    extractRecord emptyListingNode = some ⟨"Unknown", 0, "Unknown", 0⟩ :=
  c3_amended_degradation.1 emptyListingNode (by decide) (by decide) (by decide) (by decide)

/-- C4 counterexample: on the three listings with years "2020", missing and
"2018", all passing the price filter, the missing-year record leaves the
end-to-end pipeline with year 0, not 2019. -/
theorem c4_counterexample :
    (runCycle [] urlJiji (.success c4doc)).1 =
      [⟨"Unknown", 100, "Unknown", 2020⟩, ⟨"Unknown", 100, "Unknown", 0⟩,
       ⟨"Unknown", 100, "Unknown", 2018⟩] ∧
    ((runCycle [] urlJiji (.success c4doc)).1.getD 1 ⟨"", 0, "", 0⟩).year = 0 ∧
    ¬ ((runCycle [] urlJiji (.success c4doc)).1.getD 1 ⟨"", 0, "", 0⟩).year = 2019 := by
  rw [show (runCycle [] urlJiji (.success c4doc)).1 =
      [⟨"Unknown", 100, "Unknown", 2020⟩, ⟨"Unknown", 100, "Unknown", 0⟩,
       ⟨"Unknown", 100, "Unknown", 2018⟩] from by rw [c4_cycle_eval]]
  refine ⟨rfl, rfl, by decide⟩

/-- C4 amended: the extractor defaults the missing year to 0, so the
normalizer sees no missing year and imputes nothing: the missing-year
record comes out of the end-to-end pipeline with year 0, all three records
surviving the price filter. -/
theorem c4_amended_end_to_end :
    fetch_extract urlJiji c4doc =
      [⟨"Unknown", 100, "Unknown", 2020⟩, ⟨"Unknown", 100, "Unknown", 0⟩,
       ⟨"Unknown", 100, "Unknown", 2018⟩] ∧
    runCycle [] urlJiji (.success c4doc) =
      ([⟨"Unknown", 100, "Unknown", 2020⟩, ⟨"Unknown", 100, "Unknown", 0⟩,
        ⟨"Unknown", 100, "Unknown", 2018⟩], []) ∧
    yearElem nodeNoYear = none := by
  refine ⟨?_, c4_cycle_eval, by decide⟩
  have h := c4_fetch_eval
  unfold fetch_car_data at h
  exact congrArg Prod.snd h

/-- C6: with zero matching listing nodes, the locate-and-extract pass
returns the empty sequence with no error message, the cycle reports the
"no data" warning and leaves the state alone, and this outcome carries no
error message, unlike every fetch failure. -/
theorem c6_empty_result (url : String) (doc : List Node) (state : List CleanRecord)
    (h : selectListings url doc = []) :
    fetch_car_data url (.success doc) = ([], []) ∧
    runCycle state url (.success doc) =
      (state, [UIMsg.warningMsg "No data fetched. The website structure may have changed or the site may be blocking requests."]) ∧
    hasError (runCycle state url (.success doc)).2 = false ∧
    ∀ e, hasError (runCycle state url (.httpFailure e)).2 = true := by
  have hfc : fetch_car_data url (.success doc) = ([], []) := by
    simp only [fetch_car_data, fetch_extract]
    rw [h]
    rfl
  have hrc : runCycle state url (.success doc) =
      (state, [UIMsg.warningMsg "No data fetched. The website structure may have changed or the site may be blocking requests."]) := by
    unfold runCycle
    rw [hfc]
    rfl
  exact ⟨hfc, hrc, by rw [hrc]; rfl, fun e => rfl⟩

/-- C6 witness: a document whose only node is a span, matched by no rule. -/
theorem c6_witness :
    fetch_car_data "https://example.com" (.success [⟨"span", some "listing", []⟩]) = ([], []) ∧
    runCycle [] "https://example.com" (.success [⟨"span", some "listing", []⟩]) =
      ([], [UIMsg.warningMsg "No data fetched. The website structure may have changed or the site may be blocking requests."]) ∧
    hasError (runCycle [] "https://example.com"
      (.success [⟨"span", some "listing", []⟩])).2 = false ∧
    ∀ e, hasError (runCycle [] "https://example.com" (.httpFailure e)).2 = true :=
  c6_empty_result "https://example.com" [⟨"span", some "listing", []⟩] [] (by decide)

/-- C7 counterexample: the url "https://jiji.com/cars" contains "jiji" yet
is routed to the generic fallback (which selects nothing here), not to the
Jiji listing-item rule (which would select the node): the dispatch tests
the substring "jiji.ng", not "jiji". -/
theorem c7_counterexample :
    pyIn "jiji" "https://jiji.com/cars" = true ∧
    selectListings "https://jiji.com/cars" [jijiItemNode] = [] ∧
    findAllDiv [jijiItemNode] "b-list-advert__item" = [jijiItemNode] := by
  decide

/-- C7 amended: dispatch is a pure first-match-wins function of the url
over the substrings "jiji.ng", "cheki", "cars45"; the Jiji.ng Cars url
selects the Jiji listing-item rule, and a url matching none of the three
selects the generic fallback matching div nodes whose class contains
"listing" case-insensitively. -/
theorem c7_amended_dispatch (url : String) (doc : List Node) :
    (pyIn "jiji.ng" url = true →
      selectListings url doc = findAllDiv doc "b-list-advert__item") ∧
    (pyIn "jiji.ng" url = false → pyIn "cheki" url = true →
      selectListings url doc = findAllDiv doc "listing-unit") ∧
    (pyIn "jiji.ng" url = false → pyIn "cheki" url = false → pyIn "cars45" url = true →
      selectListings url doc = findAllDiv doc "vehicle-card") ∧
    (pyIn "jiji.ng" url = false → pyIn "cheki" url = false → pyIn "cars45" url = false →
      selectListings url doc =
        doc.filter (fun n => n.tag == "div" && clsSatisfies n.cls genericCls)) ∧
    selectListings urlJiji doc = findAllDiv doc "b-list-advert__item" := by
  refine ⟨?_, ?_, ?_, ?_, ?_⟩
  · intro h1
    unfold selectListings
    rw [if_pos h1]
  · intro h1 h2
    unfold selectListings
    rw [if_neg (by simp [h1]), if_pos h2]
  · intro h1 h2 h3
    unfold selectListings
    rw [if_neg (by simp [h1]), if_neg (by simp [h2]), if_pos h3]
  · intro h1 h2 h3
    unfold selectListings
    rw [if_neg (by simp [h1]), if_neg (by simp [h2]), if_neg (by simp [h3])]
  · unfold selectListings
    rw [if_pos (show pyIn "jiji.ng" urlJiji = true from by decide)]

/-- C7 witness: the Jiji.ng Cars url routed to the Jiji rule on a concrete
document. -/
theorem c7_witness :
    selectListings "https://www.jiji.ng/cars" [jijiItemNode] =
      findAllDiv [jijiItemNode] "b-list-advert__item" :=
  (c7_amended_dispatch "https://www.jiji.ng/cars" [jijiItemNode]).1 (by decide)

/-- C10: every record the extraction pass produces is complete: its price
is a non-negative number (0 when no price element is located), its year a
natural number (0 when no year element is located), and its numeric fields
coerce to present values, so the normalizer never receives a missing
numeric field from the fetcher. -/
theorem c10_no_missing_numeric (n : Node) (r : FRecord)
    (h : extractRecord n = some r) :
    0 ≤ r.price ∧
    (priceElem n = none → r.price = 0) ∧
    (yearElem n = none → r.year = 0) ∧
    toNumeric (toRawRecord r).price = some r.price ∧
    toNumeric (toRawRecord r).year = some (r.year : ℚ) := by
  cases hp : priceVal n with
  | none =>
      rw [extractRecord_noneOf n hp] at h
      exact absurd h (by simp)
  | some p =>
      rw [extractRecord_eq n p hp] at h
      injection h with h'
      subst h'
      refine ⟨?_, ?_, ?_, rfl, rfl⟩
      · by_cases he : (strippedPrice n).data.isEmpty
        · unfold priceVal at hp
          rw [if_pos he] at hp
          injection hp with h2
          rw [← h2]
        · unfold priceVal at hp
          rw [if_neg he] at hp
          exact parseRat_nonneg _ p hp
      · intro hpe
        have hd := priceVal_default n hpe
        rw [hp] at hd
        exact Option.some.inj hd
      · intro hye
        show yearVal n = 0
        unfold yearVal strippedYear
        rw [hye]
        decide

/-- C10 witness: the record of a node carrying only a price element. -/
theorem c10_witness :
    0 ≤ (FRecord.mk "Unknown" 100 "Unknown" 0).price ∧
    (priceElem nodeNoYear = none → (FRecord.mk "Unknown" 100 "Unknown" 0).price = 0) ∧
    (yearElem nodeNoYear = none → (FRecord.mk "Unknown" 100 "Unknown" 0).year = 0) ∧
    toNumeric (toRawRecord (FRecord.mk "Unknown" 100 "Unknown" 0)).price =
      some (FRecord.mk "Unknown" 100 "Unknown" 0).price ∧
    toNumeric (toRawRecord (FRecord.mk "Unknown" 100 "Unknown" 0)).year =
      some ((FRecord.mk "Unknown" 100 "Unknown" 0).year : ℚ) :=
  c10_no_missing_numeric nodeNoYear _ extract_nodeNoYear

end Abtech
